import Mathlib

/-!
Verification of the Lunaria cycle calculator
(`backend/app/services/cycle.py`) against its specification.

Dates are embedded through the proleptic Gregorian ordinal used by
Python's `datetime.date` (`date.toordinal`): day 1 is 0001-01-01, and
`(a - b).days` equals the difference of the two ordinals.  Python
exceptions are embedded as `Except PyError`: `ValueError` becomes
`PyError.valueError` (the spec's `InvalidArgument`) and any other
exception becomes `PyError.exception` (the spec's `Internal`).
-/

namespace Lunaria

/-- A plain calendar date (year, month, day), as Python's `datetime.date`. -/
structure CalendarDate where
  year : Nat
  month : Nat
  day : Nat
deriving DecidableEq, Repr

/-- Python's leap-year rule (`calendar.isleap`). -/
def isLeapYear (y : Nat) : Bool :=
  y % 4 == 0 && (y % 100 != 0 || y % 400 == 0)

/-- Days in all years strictly before year `y` (Python `_days_before_year`). -/
def daysBeforeYear (y : Nat) : Nat :=
  let p := y - 1
  p * 365 + p / 4 - p / 100 + p / 400

/-- Days in year `y` strictly before month `m` (Python `_days_before_month`). -/
def daysBeforeMonth (y m : Nat) : Nat :=
  let base :=
    match m with
    | 1 => 0 | 2 => 31 | 3 => 59 | 4 => 90 | 5 => 120 | 6 => 151
    | 7 => 181 | 8 => 212 | 9 => 243 | 10 => 273 | 11 => 304 | _ => 334
  base + (if 2 < m ∧ isLeapYear y then 1 else 0)

/-- Python's `date.toordinal`: 0001-01-01 has ordinal 1. -/
def toordinal (d : CalendarDate) : Nat :=
  daysBeforeYear d.year + daysBeforeMonth d.year d.month + d.day

/-- Embedding of Python exceptions raised by the calculator:
`valueError` is the spec's `InvalidArgument`, `exception` the spec's `Internal`. -/
inductive PyError where
  | valueError (msg : String)
  | exception (msg : String)
deriving DecidableEq, Repr

/-- `app.models.cycle.PhaseDetails`: four free-text fields. -/
structure PhaseDetails where
  energy : String
  emotional : String
  nutrition : String
  exercise : String
deriving DecidableEq, Repr

/-- `app.models.cycle.DayInfo`: the output record of `get_day_info`.
The source stores `target_date.isoformat()`; we keep the date itself. -/
structure DayInfo where
  date : CalendarDate
  cycleDay : Int
  phase : String
  details : Option PhaseDetails
deriving DecidableEq, Repr

def DEFAULT_CYCLE_LENGTH : Int := 28
def DEFAULT_PERIOD_LENGTH : Int := 5
def MIN_CYCLE_LENGTH : Int := 21
def MAX_CYCLE_LENGTH : Int := 35

def VALID_PHASES : List String := ["menstrual", "follicular", "ovulatory", "luteal"]

/-- The `"menstrual"` entry of `PHASE_DETAILS`. -/
def menstrualDetails : PhaseDetails :=
  PhaseDetails.mk
    "Energy levels may be lower. Focus on rest and gentle movement."
    "You may experience mood swings. Practice self-compassion."
    "Iron-rich foods are important. Stay hydrated and consider warm, nourishing meals."
    "Light exercises like walking or gentle yoga are recommended."

/-- The `"follicular"` entry of `PHASE_DETAILS`. -/
def follicularDetails : PhaseDetails :=
  PhaseDetails.mk
    "Energy levels begin to rise. Good time for new projects."
    "Increased optimism and creativity. Social energy is high."
    "Focus on lean proteins and fresh vegetables to support hormonal balance."
    "Great time for high-intensity workouts and trying new activities."

/-- The `"ovulatory"` entry of `PHASE_DETAILS`. -/
def ovulatoryDetails : PhaseDetails :=
  PhaseDetails.mk
    "Peak energy levels. Take advantage of natural confidence."
    "High communication skills and social confidence."
    "Eat light, fresh foods. Support detoxification with leafy greens."
    "Perfect for challenging workouts and endurance training."

/-- The `"luteal"` entry of `PHASE_DETAILS`. -/
def lutealDetails : PhaseDetails :=
  PhaseDetails.mk
    "Energy gradually decreases. Listen to your body\x27s needs."
    "May experience PMS symptoms. Focus on self-care."
    "Include complex carbs and magnesium-rich foods to support mood."
    "Moderate exercise like swimming or pilates works well."

/-- The `PHASE_DETAILS` dict, as a partial lookup (a missing key is `none`,
Python's `KeyError`). -/
def PHASE_DETAILS (phase : String) : Option PhaseDetails :=
  if phase = "menstrual" then some menstrualDetails
  else if phase = "follicular" then some follicularDetails
  else if phase = "ovulatory" then some ovulatoryDetails
  else if phase = "luteal" then some lutealDetails
  else none

/-- `clamp_cycle_length`: `max(MIN_CYCLE_LENGTH, min(value, MAX_CYCLE_LENGTH))`. -/
def clamp_cycle_length (value : Int) : Int :=
  max MIN_CYCLE_LENGTH (min value MAX_CYCLE_LENGTH)

/-- `get_cycle_day(target_date, last_period_start_date, cycle_length)`.
The `isinstance` date checks of the source are imposed by the embedding's
types; date comparison and subtraction go through `toordinal`. -/
def get_cycle_day (target_date last_period_start_date : CalendarDate)
    (cycle_length : Int) : Except PyError Int :=
  if cycle_length ≤ 0 then
    .error (.valueError "cycle_length must be a positive integer.")
  else if toordinal target_date < toordinal last_period_start_date then
    .error (.valueError "Target date can not be before the last period start date.")
  else
    let clamped := clamp_cycle_length cycle_length
    let diff : Int := (toordinal target_date : Int) - (toordinal last_period_start_date : Int)
    .ok (diff % clamped + 1)

/-- `get_cycle_phase(cycle_day, cycle_length, period_length, luteal_phase_length=14)`.
The default argument is passed explicitly by callers here. -/
def get_cycle_phase (cycle_day cycle_length period_length luteal_phase_length : Int) :
    Except PyError String :=
  if cycle_day ≤ 0 ∨ cycle_length ≤ 0 ∨ period_length ≤ 0 ∨ luteal_phase_length ≤ 0 then
    .error (.valueError "Cycle day, cycle length, period length, and luteal phase length must be positive integers.")
  else if period_length > cycle_length then
    .error (.valueError "Period length cannot be longer than cycle length.")
  else
    let clamped := clamp_cycle_length cycle_length
    if cycle_day ≤ period_length then .ok "menstrual"
    else
      let luteal_start := clamped - luteal_phase_length
      if cycle_day ≥ luteal_start then .ok "luteal"
      else
        let ovulation_day := clamped - luteal_phase_length - 1
        if ovulation_day ≤ cycle_day ∧ cycle_day ≤ ovulation_day + 2 then .ok "ovulatory"
        else .ok "follicular"

/-- `get_phase_details(phase)`: dict lookup with a `"follicular"` fallback for
unknown phases (`none` would be Python's `KeyError`, which never occurs). -/
def get_phase_details (phase : String) : Option PhaseDetails :=
  if phase ∉ VALID_PHASES then PHASE_DETAILS "follicular"
  else PHASE_DETAILS phase

/-- The `try/except` block of `get_day_info`: a `ValueError` raised inside it
is re-raised with the `"Error calculating day info: "` prefix, any other
exception with the `"An unexpected error occurred: "` prefix. -/
def wrap_day_info_error {α : Type} : Except PyError α → Except PyError α
  | .error (.valueError e) => .error (.valueError ("Error calculating day info: " ++ e))
  | .error (.exception e) => .error (.exception ("An unexpected error occurred: " ++ e))
  | .ok v => .ok v

/-- `get_day_info(target_date, last_period_start_date, cycle_length,
period_length, include_details)`.  The three opening validations are raised
outside the `try` block and so keep their bare messages; the two inner calls
and the `DayInfo` construction run inside the `try` block embedded by
`wrap_day_info_error`. -/
def get_day_info (target_date last_period_start_date : CalendarDate)
    (cycle_length period_length : Int) (include_details : Bool) :
    Except PyError DayInfo :=
  if cycle_length ≤ 0 ∨ period_length ≤ 0 then
    .error (.valueError "cycle_length and period_length must be positive integers.")
  else if toordinal target_date < toordinal last_period_start_date then
    .error (.valueError "Target date can not be before the last period start date.")
  else
    wrap_day_info_error
      ((get_cycle_day target_date last_period_start_date cycle_length).bind fun cycle_day =>
        (get_cycle_phase cycle_day cycle_length period_length 14).bind fun phase =>
          let details := if include_details then get_phase_details phase else none
          .ok (DayInfo.mk target_date cycle_day phase details))

/-- The phase-classification algorithm exactly as the specification words it
(section 4, `computeCyclePhase`, steps 1-5), for comparison with the source
function `get_cycle_phase`. -/
def computeCyclePhaseSpec (cycleDay cycleLength periodLength lutealPhaseLength : Int) : String :=
  let clamped := clamp_cycle_length cycleLength
  if cycleDay ≤ periodLength then "menstrual"
  else if cycleDay ≥ clamped - lutealPhaseLength then "luteal"
  else if clamped - lutealPhaseLength - 1 ≤ cycleDay ∧ cycleDay ≤ clamped - lutealPhaseLength + 1 then
    "ovulatory"
  else "follicular"

lemma clamp_cycle_length_lb (L : Int) : 21 ≤ clamp_cycle_length L := by
  unfold clamp_cycle_length MIN_CYCLE_LENGTH MAX_CYCLE_LENGTH
  omega

lemma clamp_cycle_length_ub (L : Int) : clamp_cycle_length L ≤ 35 := by
  unfold clamp_cycle_length MIN_CYCLE_LENGTH MAX_CYCLE_LENGTH
  omega

lemma get_cycle_day_def (t a : CalendarDate) (L : Int) :
    get_cycle_day t a L =
      if L ≤ 0 then .error (.valueError "cycle_length must be a positive integer.")
      else if toordinal t < toordinal a then
        .error (.valueError "Target date can not be before the last period start date.")
      else .ok (((toordinal t : Int) - (toordinal a : Int)) % clamp_cycle_length L + 1) := rfl

lemma get_cycle_phase_def (cd cl pl lpl : Int) :
    get_cycle_phase cd cl pl lpl =
      if cd ≤ 0 ∨ cl ≤ 0 ∨ pl ≤ 0 ∨ lpl ≤ 0 then
        .error (.valueError "Cycle day, cycle length, period length, and luteal phase length must be positive integers.")
      else if pl > cl then
        .error (.valueError "Period length cannot be longer than cycle length.")
      else if cd ≤ pl then .ok "menstrual"
      else if cd ≥ clamp_cycle_length cl - lpl then .ok "luteal"
      else if clamp_cycle_length cl - lpl - 1 ≤ cd ∧ cd ≤ clamp_cycle_length cl - lpl - 1 + 2 then
        .ok "ovulatory"
      else .ok "follicular" := rfl

/-- C1: for targetDate not before anchorDate and any positive cycleLength,
`get_cycle_day` succeeds (a cycleLength outside `[21, 35]` is clamped, never
rejected) and returns `(diff mod clampCycleLength(cycleLength)) + 1`, which
always lies in `[1, clampCycleLength(cycleLength)]`. -/
theorem get_cycle_day_formula_and_range (t a : CalendarDate) (L : Int)
    (hL : 0 < L) (hta : toordinal a ≤ toordinal t) :
    get_cycle_day t a L =
      .ok (((toordinal t : Int) - (toordinal a : Int)) % clamp_cycle_length L + 1) ∧
    1 ≤ ((toordinal t : Int) - (toordinal a : Int)) % clamp_cycle_length L + 1 ∧
    ((toordinal t : Int) - (toordinal a : Int)) % clamp_cycle_length L + 1 ≤ clamp_cycle_length L := by
  have hlb := clamp_cycle_length_lb L
  have h0 : 0 ≤ ((toordinal t : Int) - (toordinal a : Int)) % clamp_cycle_length L :=
    Int.emod_nonneg _ (by omega)
  have h1 : ((toordinal t : Int) - (toordinal a : Int)) % clamp_cycle_length L <
      clamp_cycle_length L :=
    Int.emod_lt_of_pos _ (by omega)
  refine ⟨?_, by omega, by omega⟩
  rw [get_cycle_day_def, if_neg (by omega), if_neg (by omega)]

/-- C1 witness: with cycleLength 40 (above 35, silently clamped to 35) and a
24-day date difference, `get_cycle_day` returns `24 mod 35 + 1 = 25`. -/
theorem get_cycle_day_formula_and_range_witness :
    (0 : Int) < 40 ∧ toordinal ⟨2024, 2, 15⟩ ≤ toordinal ⟨2024, 3, 10⟩ ∧
    (get_cycle_day ⟨2024, 3, 10⟩ ⟨2024, 2, 15⟩ 40 =
        .ok (((toordinal ⟨2024, 3, 10⟩ : Int) - (toordinal ⟨2024, 2, 15⟩ : Int)) %
          clamp_cycle_length 40 + 1) ∧
      1 ≤ ((toordinal ⟨2024, 3, 10⟩ : Int) - (toordinal ⟨2024, 2, 15⟩ : Int)) %
          clamp_cycle_length 40 + 1 ∧
      ((toordinal ⟨2024, 3, 10⟩ : Int) - (toordinal ⟨2024, 2, 15⟩ : Int)) %
          clamp_cycle_length 40 + 1 ≤ clamp_cycle_length 40) :=
  ⟨by decide, by decide,
    get_cycle_day_formula_and_range ⟨2024, 3, 10⟩ ⟨2024, 2, 15⟩ 40 (by decide) (by decide)⟩

/-- C4: periodicity and identity of `get_cycle_day`: whenever the target's
ordinal is the anchor's plus `k` whole clamped cycle lengths, the cycle day is
1; in particular it is 1 when target equals anchor. -/
theorem get_cycle_day_periodic (t a : CalendarDate) (L : Int) (k : Nat)
    (hL : 0 < L)
    (hk : (toordinal t : Int) = (toordinal a : Int) + k * clamp_cycle_length L) :
    get_cycle_day t a L = .ok 1 ∧ get_cycle_day a a L = .ok 1 := by
  have hlb := clamp_cycle_length_lb L
  have hk0 : 0 ≤ (k : Int) * clamp_cycle_length L :=
    mul_nonneg (Int.natCast_nonneg k) (by omega)
  have hdiff : (toordinal t : Int) - (toordinal a : Int) = (k : Int) * clamp_cycle_length L := by
    omega
  constructor
  · rw [get_cycle_day_def, if_neg (by omega), if_neg (by omega), hdiff, Int.mul_emod_left]
    norm_num
  · rw [get_cycle_day_def, if_neg (by omega), if_neg (by omega), sub_self, Int.zero_emod]
    norm_num

/-- C4 witness: 2024-01-29 is 2024-01-01 plus one 28-day cycle, and both that
date and the anchor itself land on cycle day 1. -/
theorem get_cycle_day_periodic_witness :
    (0 : Int) < 28 ∧
    (toordinal ⟨2024, 1, 29⟩ : Int) = (toordinal ⟨2024, 1, 1⟩ : Int) + 1 * clamp_cycle_length 28 ∧
    (get_cycle_day ⟨2024, 1, 29⟩ ⟨2024, 1, 1⟩ 28 = .ok 1 ∧
      get_cycle_day ⟨2024, 1, 1⟩ ⟨2024, 1, 1⟩ 28 = .ok 1) :=
  ⟨by decide, by decide,
    get_cycle_day_periodic ⟨2024, 1, 29⟩ ⟨2024, 1, 1⟩ 28 1 (by decide) (by decide)⟩

/-- C5: the end-to-end scenario `get_day_info(2024-03-10, 2024-02-15, 28, 5,
include_details=false)` succeeds with a 24-day date difference, cycleDay 25,
phase `"luteal"` and no details. -/
theorem get_day_info_scenario1 :
    get_day_info ⟨2024, 3, 10⟩ ⟨2024, 2, 15⟩ 28 5 false =
      .ok (DayInfo.mk ⟨2024, 3, 10⟩ 25 "luteal" none) ∧
    (toordinal ⟨2024, 3, 10⟩ : Int) - (toordinal ⟨2024, 2, 15⟩ : Int) = 24 :=
  ⟨by rfl, by decide⟩

/-- C6: with all four arguments strictly positive, `get_cycle_phase` raises
`ValueError` (the spec's `InvalidArgument`) whenever periodLength exceeds
cycleLength, and returns no phase. -/
theorem get_cycle_phase_period_too_long (cd cl pl lpl : Int)
    (h1 : 0 < cd) (h2 : 0 < cl) (h3 : 0 < pl) (h4 : 0 < lpl) (h : cl < pl) :
    get_cycle_phase cd cl pl lpl =
      .error (.valueError "Period length cannot be longer than cycle length.") := by
  rw [get_cycle_phase_def, if_neg (by omega), if_pos (by omega)]

/-- C6 witness: period length 30 against cycle length 28 is rejected. -/
theorem get_cycle_phase_period_too_long_witness :
    (0 : Int) < 1 ∧ (0 : Int) < 28 ∧ (0 : Int) < 30 ∧ (0 : Int) < 14 ∧ (28 : Int) < 30 ∧
    get_cycle_phase 1 28 30 14 =
      .error (.valueError "Period length cannot be longer than cycle length.") :=
  ⟨by decide, by decide, by decide, by decide, by decide,
    get_cycle_phase_period_too_long 1 28 30 14 (by decide) (by decide) (by decide) (by decide)
      (by decide)⟩

/-- C7: with a positive cycleLength and a targetDate strictly before the
anchorDate, `get_cycle_day` raises `ValueError` with a non-empty
human-readable message, and returns no day number. -/
theorem get_cycle_day_target_before_anchor (t a : CalendarDate) (L : Int)
    (hL : 0 < L) (h : toordinal t < toordinal a) :
    get_cycle_day t a L =
      .error (.valueError "Target date can not be before the last period start date.") ∧
    "Target date can not be before the last period start date." ≠ "" := by
  rw [get_cycle_day_def, if_neg (by omega), if_pos h]
  exact ⟨rfl, by decide⟩

/-- C7 witness: asking about 2024-02-15 with anchor 2024-03-10 fails. -/
theorem get_cycle_day_target_before_anchor_witness :
    (0 : Int) < 28 ∧ toordinal ⟨2024, 2, 15⟩ < toordinal ⟨2024, 3, 10⟩ ∧
    (get_cycle_day ⟨2024, 2, 15⟩ ⟨2024, 3, 10⟩ 28 =
        .error (.valueError "Target date can not be before the last period start date.") ∧
      "Target date can not be before the last period start date." ≠ "") :=
  ⟨by decide, by decide,
    get_cycle_day_target_before_anchor ⟨2024, 2, 15⟩ ⟨2024, 3, 10⟩ 28 (by decide) (by decide)⟩

/-- C2: under its preconditions, `get_cycle_phase` returns exactly the phase
chosen by the spec's ordered first-match algorithm (`computeCyclePhaseSpec`),
that phase is one of the four valid phase values, and any cycleDay up to
periodLength yields `"menstrual"`. -/
theorem get_cycle_phase_matches_spec (cd cl pl lpl : Int)
    (h1 : 0 < cd) (h2 : 0 < cl) (h3 : 0 < pl) (h4 : 0 < lpl) (h5 : pl ≤ cl) :
    get_cycle_phase cd cl pl lpl = .ok (computeCyclePhaseSpec cd cl pl lpl) ∧
    computeCyclePhaseSpec cd cl pl lpl ∈ VALID_PHASES ∧
    (cd ≤ pl → get_cycle_phase cd cl pl lpl = .ok "menstrual") := by
  have hspec : computeCyclePhaseSpec cd cl pl lpl =
      if cd ≤ pl then "menstrual"
      else if cd ≥ clamp_cycle_length cl - lpl then "luteal"
      else if clamp_cycle_length cl - lpl - 1 ≤ cd ∧ cd ≤ clamp_cycle_length cl - lpl + 1 then
        "ovulatory"
      else "follicular" := rfl
  refine ⟨?_, ?_, ?_⟩
  · rw [get_cycle_phase_def, if_neg (by omega), if_neg (by omega), hspec]
    split_ifs with hA hB hC hD <;> first | rfl | omega
  · rw [hspec]
    split_ifs <;> decide
  · intro h
    rw [get_cycle_phase_def, if_neg (by omega), if_neg (by omega), if_pos h]

/-- C2 witness: cycle day 3 of a 28/5 cycle is classified as the spec says,
namely `"menstrual"`. -/
theorem get_cycle_phase_matches_spec_witness :
    ((0 : Int) < 3 ∧ (0 : Int) < 28 ∧ (0 : Int) < 5 ∧ (0 : Int) < 14 ∧ (5 : Int) ≤ 28) ∧
    get_cycle_phase 3 28 5 14 = .ok (computeCyclePhaseSpec 3 28 5 14) ∧
    get_cycle_phase 3 28 5 14 = .ok "menstrual" :=
  ⟨⟨by decide, by decide, by decide, by decide, by decide⟩,
    (get_cycle_phase_matches_spec 3 28 5 14 (by decide) (by decide) (by decide) (by decide)
      (by decide)).1,
    (get_cycle_phase_matches_spec 3 28 5 14 (by decide) (by decide) (by decide) (by decide)
      (by decide)).2.2 (by decide)⟩

/-- C9: with the default lutealPhaseLength 14, `get_cycle_phase` answers
`"ovulatory"` exactly when cycleDay equals `clampCycleLength(cycleLength) - 15`
and exceeds periodLength; the upper two days of the nominal 3-day ovulatory
window satisfy the earlier luteal test and are classified `"luteal"`. -/
theorem get_cycle_phase_ovulatory_single_day (cd cl pl : Int)
    (h1 : 0 < cd) (h2 : 0 < cl) (h3 : 0 < pl) (h5 : pl ≤ cl) :
    (get_cycle_phase cd cl pl 14 = .ok "ovulatory" ↔
      pl < cd ∧ cd = clamp_cycle_length cl - 15) ∧
    ((cd = clamp_cycle_length cl - 14 ∨ cd = clamp_cycle_length cl - 13) → pl < cd →
      get_cycle_phase cd cl pl 14 = .ok "luteal") := by
  have hlb := clamp_cycle_length_lb cl
  have hub := clamp_cycle_length_ub cl
  constructor
  · rw [get_cycle_phase_def, if_neg (by omega), if_neg (by omega)]
    split_ifs with hA hB hC
    · exact ⟨fun h => absurd (Except.ok.inj h) (by decide), fun h => absurd hA (by omega)⟩
    · exact ⟨fun h => absurd (Except.ok.inj h) (by decide), fun h => absurd hB (by omega)⟩
    · exact ⟨fun _ => by omega, fun _ => rfl⟩
    · exact ⟨fun h => absurd (Except.ok.inj h) (by decide), fun h => absurd h (by omega)⟩
  · intro hd hpd
    rw [get_cycle_phase_def, if_neg (by omega), if_neg (by omega), if_neg (by omega),
      if_pos (by omega)]

/-- C9 witness: in a 28/5 cycle, day 13 = 28 - 15 is the only ovulatory day
and day 14 (inside the nominal window) is luteal. -/
theorem get_cycle_phase_ovulatory_single_day_witness :
    (get_cycle_phase 13 28 5 14 = .ok "ovulatory" ↔
      (5 : Int) < 13 ∧ (13 : Int) = clamp_cycle_length 28 - 15) ∧
    get_cycle_phase 14 28 5 14 = .ok "luteal" :=
  ⟨(get_cycle_phase_ovulatory_single_day 13 28 5 (by decide) (by decide) (by decide)
      (by decide)).1,
    (get_cycle_phase_ovulatory_single_day 14 28 5 (by decide) (by decide) (by decide)
      (by decide)).2 (Or.inl (by decide)) (by decide)⟩

/-- C10: the `periodLength ≤ cycleLength` precondition is checked against the
raw cycleLength, not the clamped one: for cycleLength above 35 and a
periodLength above 35 but at most cycleLength, the call succeeds, and every
cycleDay at most periodLength — in particular every day in `[1, 35]` — is
classified `"menstrual"`. -/
theorem get_cycle_phase_raw_period_check (cd cl pl : Int)
    (hcl : 35 < cl) (hpl : 35 < pl) (hple : pl ≤ cl) (hcd : 0 < cd)
    (hcdle : cd ≤ 35 ∨ cd ≤ pl) :
    get_cycle_phase cd cl pl 14 = .ok "menstrual" := by
  rw [get_cycle_phase_def, if_neg (by omega), if_neg (by omega), if_pos (by omega)]

/-- C10 witness: cycleLength 40 with periodLength 38 is accepted and day 20
is menstrual. -/
theorem get_cycle_phase_raw_period_check_witness :
    ((35 : Int) < 40 ∧ (35 : Int) < 38 ∧ (38 : Int) ≤ 40 ∧ (0 : Int) < 20 ∧
      ((20 : Int) ≤ 35 ∨ (20 : Int) ≤ 38)) ∧
    get_cycle_phase 20 40 38 14 = .ok "menstrual" :=
  ⟨⟨by decide, by decide, by decide, by decide, Or.inl (by decide)⟩,
    get_cycle_phase_raw_period_check 20 40 38 (by decide) (by decide) (by decide) (by decide)
      (Or.inl (by decide))⟩

/-- C8: `get_phase_details` is total and never fails: each of the four valid
phases maps to its own static record, any other string falls back to the
follicular record, and the returned record's four text fields are non-empty. -/
theorem get_phase_details_total (phase : String) :
    get_phase_details phase =
      some (if phase = "menstrual" then menstrualDetails
        else if phase = "ovulatory" then ovulatoryDetails
        else if phase = "luteal" then lutealDetails
        else follicularDetails) ∧
    ((get_phase_details phase).getD follicularDetails).energy ≠ "" ∧
    ((get_phase_details phase).getD follicularDetails).emotional ≠ "" ∧
    ((get_phase_details phase).getD follicularDetails).nutrition ≠ "" ∧
    ((get_phase_details phase).getD follicularDetails).exercise ≠ "" := by
  by_cases hm : phase = "menstrual"
  · subst hm
    exact ⟨by decide, by decide, by decide, by decide, by decide⟩
  by_cases hf : phase = "follicular"
  · subst hf
    exact ⟨by decide, by decide, by decide, by decide, by decide⟩
  by_cases ho : phase = "ovulatory"
  · subst ho
    exact ⟨by decide, by decide, by decide, by decide, by decide⟩
  by_cases hl : phase = "luteal"
  · subst hl
    exact ⟨by decide, by decide, by decide, by decide, by decide⟩
  have hmem : phase ∉ VALID_PHASES := by
    simp [VALID_PHASES, hm, hf, ho, hl]
  have hres : get_phase_details phase = some follicularDetails := by
    unfold get_phase_details
    rw [if_pos hmem]
    decide
  rw [hres, if_neg hm, if_neg ho, if_neg hl]
  exact ⟨rfl, by decide, by decide, by decide, by decide⟩

lemma get_cycle_day_no_internal (t a : CalendarDate) (L : Int) (e : String) :
    get_cycle_day t a L ≠ .error (.exception e) := by
  rw [get_cycle_day_def]
  split_ifs <;> simp

lemma get_cycle_phase_no_internal (cd cl pl lpl : Int) (e : String) :
    get_cycle_phase cd cl pl lpl ≠ .error (.exception e) := by
  rw [get_cycle_phase_def]
  split_ifs <;> simp

lemma get_day_info_body_no_internal (t a : CalendarDate) (cl pl : Int)
    (dtl : String → Option PhaseDetails) (e : String) :
    wrap_day_info_error
        ((get_cycle_day t a cl).bind fun cycle_day =>
          (get_cycle_phase cycle_day cl pl 14).bind fun phase =>
            Except.ok (DayInfo.mk t cycle_day phase (dtl phase))) ≠
      Except.error (PyError.exception e) := by
  rcases hd : get_cycle_day t a cl with em | cd
  · rcases em with m | m
    · simp [wrap_day_info_error, Except.bind]
    · exact absurd hd (get_cycle_day_no_internal t a cl m)
  · simp only [Except.bind]
    rcases hp : get_cycle_phase cd cl pl 14 with em | ph
    · rcases em with m | m
      · simp [wrap_day_info_error, Except.bind]
      · exact absurd hp (get_cycle_phase_no_internal cd cl pl 14 m)
    · simp [wrap_day_info_error, Except.bind]

/-- C3 counterexample: a failure of `get_day_info`'s own step-1 validation
(here cycle_length = 0) raises `ValueError` with the bare message
"cycle_length and period_length must be positive integers.", whose first 26
characters are not the prefix "Error calculating day info" the claim
requires. -/
theorem get_day_info_step1_message_unprefixed :
    get_day_info ⟨2024, 3, 10⟩ ⟨2024, 2, 15⟩ 0 5 false =
      .error (.valueError "cycle_length and period_length must be positive integers.") ∧
    ("cycle_length and period_length must be positive integers.").data.take 26 ≠
      ("Error calculating day info").data :=
  ⟨by rfl, by decide⟩

/-- C3 amended: `get_day_info`'s own step-1 validation failures raise
`ValueError` (the spec's `InvalidArgument`) with their bare, unprefixed
messages; only errors raised by the inner `get_cycle_day` / `get_cycle_phase`
calls are re-raised with the "Error calculating day info: " prefix; and no
unwrapped `Internal`-style error ever escapes (in this model no unexpected
exception can occur at all, and one that did would be wrapped by the same
`try` block). -/
theorem get_day_info_error_paths (t a : CalendarDate) (cl pl : Int) (b : Bool) :
    ((cl ≤ 0 ∨ pl ≤ 0) →
      get_day_info t a cl pl b =
        .error (.valueError "cycle_length and period_length must be positive integers.")) ∧
    (0 < cl → 0 < pl → toordinal t < toordinal a →
      get_day_info t a cl pl b =
        .error (.valueError "Target date can not be before the last period start date.")) ∧
    (0 < cl → 0 < pl → toordinal a ≤ toordinal t → cl < pl →
      get_day_info t a cl pl b =
        .error (.valueError
          ("Error calculating day info: " ++ "Period length cannot be longer than cycle length."))) ∧
    (∀ e : String, get_day_info t a cl pl b ≠ .error (.exception e)) := by
  refine ⟨?_, ?_, ?_, ?_⟩
  · intro h
    unfold get_day_info
    rw [if_pos h]
  · intro h2 h3 hta
    unfold get_day_info
    rw [if_neg (by omega), if_pos hta]
  · intro h2 h3 hta hlt
    have hlb := clamp_cycle_length_lb cl
    have h0 : 0 ≤ ((toordinal t : Int) - (toordinal a : Int)) % clamp_cycle_length cl :=
      Int.emod_nonneg _ (by omega)
    have hday : get_cycle_day t a cl =
        .ok (((toordinal t : Int) - (toordinal a : Int)) % clamp_cycle_length cl + 1) := by
      rw [get_cycle_day_def, if_neg (by omega), if_neg (by omega)]
    have hph : get_cycle_phase
        (((toordinal t : Int) - (toordinal a : Int)) % clamp_cycle_length cl + 1) cl pl 14 =
        .error (.valueError "Period length cannot be longer than cycle length.") := by
      rw [get_cycle_phase_def, if_neg (by omega), if_pos (by omega)]
    unfold get_day_info
    rw [if_neg (by omega), if_neg (by omega), hday]
    simp only [Except.bind, hph]
    rfl
  · intro e
    unfold get_day_info
    split_ifs with hA hB hb
    · simp
    · simp
    · exact get_day_info_body_no_internal t a cl pl get_phase_details e
    · exact get_day_info_body_no_internal t a cl pl (fun _ => none) e

/-- C3 amended witness: cycle length 28 with period length 30 passes step 1,
fails inside `get_cycle_phase`, and comes back with the prefixed message. -/
theorem get_day_info_error_paths_witness :
    get_day_info ⟨2024, 3, 10⟩ ⟨2024, 2, 15⟩ 28 30 false =
      .error (.valueError
        ("Error calculating day info: " ++ "Period length cannot be longer than cycle length.")) :=
  (get_day_info_error_paths ⟨2024, 3, 10⟩ ⟨2024, 2, 15⟩ 28 30 false).2.2.1 (by decide) (by decide)
    (by decide) (by decide)

end Lunaria
